import Mathlib

/-!
# CivicSwipe backend core: shallow embedding and verification

This file embeds the core algorithms of the CivicSwipe backend
(`app/connectors/federal.py`, `app/connectors/arizona.py`,
`app/services/roll_call_votes.py`, `app/services/match_engine.py`,
`app/api/v1/endpoints/voting.py`, `app/api/v1/endpoints/dashboard.py`,
`app/core/cache.py`) as executable Lean definitions over a list-based
canonical store, and proves or refutes the specification's claims about
them.

Conventions:
* UUIDs are modelled as `Nat`; fresh UUID generation (`uuid4`) is modelled
  by a `nextId` counter in the store state.
* Timestamps are modelled as `Nat`; the date-string parsing performed by
  external libraries (`strptime`, `fromisoformat`) sits at the external
  collaborator boundary and documents carry already-parsed optional
  timestamps.
* Python strings are `String`; `str.strip`, `str.lower`, `str.upper`,
  substring containment (`in`) and `re.search` over the specific citation
  patterns are embedded below, on ASCII data as used by the repository.
* Database rows are records in lists; SQLAlchemy queries become list
  filters/finds; `dict` comprehensions (later key wins) become
  reversed-list lookups.
-/

namespace CivicSwipe

/- `Rat.mul`/`Rat.inv`/`Rat.add`/`Rat.sub` ship `@[irreducible]`; making
them semireducible lets `decide` evaluate concrete rational scores. -/
attribute [local semireducible] Rat.mul Rat.inv Rat.add Rat.sub

/-! ## String primitives (Python `str` semantics on ASCII data) -/

/-- Python `\s` / `str.strip` whitespace class (ASCII part). -/
def wsChar (c : Char) : Bool :=
  c = ' ' || c = '\t' || c = '\n' || c = '\x0d' || c = '\x0b' || c = '\x0c'

/-- Python `str.strip()` on a character list. -/
def stripChars (cs : List Char) : List Char :=
  ((cs.dropWhile wsChar).reverse.dropWhile wsChar).reverse

/-- Python `str.strip()`. -/
def pyStrip (s : String) : String :=
  String.mk (stripChars s.toList)

/-- Python `str.lower()` (ASCII). -/
def strLower (s : String) : String :=
  String.mk (s.toList.map Char.toLower)

/-- Python `str.upper()` (ASCII). -/
def strUpper (s : String) : String :=
  String.mk (s.toList.map Char.toUpper)

/-- `pat` occurs as a contiguous sublist of `s`. -/
def listHasInfix (pat s : List Char) : Bool :=
  (s.tails).any (fun t => pat.isPrefixOf t)

/-- Python `pat in s` substring containment. -/
def strContains (s pat : String) : Bool :=
  listHasInfix pat.toList s.toList

/-- Python `str.split()` with no argument: split on whitespace runs,
dropping empty pieces. -/
def pyWords (s : String) : List String :=
  ((s.toList.splitOnP wsChar).filter (fun w => !w.isEmpty)).map String.mk

/-- Python truthiness of an optional string (`None` and `""` are falsy). -/
def optStrFalsy : Option String → Bool
  | none => true
  | some s => s == ""

/-! ## Status mapping (`FederalConnector._map_status`,
`ArizonaConnector._map_status`)

Each is a fixed keyword-priority chain over the lowercased latest-action
text; the first matching rule wins. -/

/-- `FederalConnector._map_status` (connectors/federal.py lines 256-277). -/
def federalMapStatus (actionText : String) : String :=
  let t := strLower actionText
  if strContains t "became public law" || strContains t "signed by president" then
    "passed"
  else if strContains t "passed" || strContains t "agreed to" then
    "passed"
  else if strContains t "failed" || strContains t "rejected" then
    "failed"
  else if strContains t "referred to" || strContains t "committee" then
    "in_committee"
  else if strContains t "introduced" || strContains t "sponsor" then
    "introduced"
  else if strContains t "scheduled" || strContains t "calendar" then
    "scheduled"
  else if strContains t "tabled" then
    "tabled"
  else if strContains t "withdrawn" then
    "withdrawn"
  else
    "unknown"

/-- `ArizonaConnector._map_status` (connectors/arizona.py lines 175-195),
applied to the bill's `latest_action_description`. -/
def arizonaMapStatus (latestAction : String) : String :=
  let t := strLower latestAction
  if strContains t "passed" || strContains t "signed" then
    "passed"
  else if strContains t "failed" || strContains t "vetoed" then
    "failed"
  else if strContains t "committee" then
    "in_committee"
  else if strContains t "introduced" || strContains t "read" then
    "introduced"
  else if strContains t "calendar" || strContains t "scheduled" then
    "scheduled"
  else if strContains t "tabled" || strContains t "held" then
    "tabled"
  else if strContains t "withdrawn" then
    "withdrawn"
  else
    "unknown"

/-- The canonical measure-status vocabulary produced by the mappers. -/
def measureStatusValues : List String :=
  ["introduced", "scheduled", "in_committee", "passed", "failed", "tabled",
   "withdrawn", "unknown"]

/-! ## Bill-citation patterns (`RollCallVoteService._match_bill_to_measure`)

The source uses `re.search` with eight patterns of the shape
`X\.?\s*Y\.?\s*(\d+)` built from literal letters, optional dots (`\.?`)
and whitespace runs (`\s*`), ending in a digit capture group.  For this
pattern shape, greedy matching without backtracking coincides with
Python's backtracking semantics (an optional dot is consumed exactly when
present, since no later token matches `'.'`; a whitespace run is consumed
maximally, since no later token matches whitespace), so the engine below
is deterministic. -/

/-- One token of a citation pattern; a trailing `(\d+)` capture is
implicit at the end of every pattern. -/
inductive RTok where
  | lit (c : Char)
  | optDot
  | ws
deriving Repr, DecidableEq

/-- Match a token list (then the trailing digit capture) at the start of
`cs`; returns the captured digit string on success. -/
def matchToksAt : List RTok → List Char → Option String
  | [], cs =>
      let ds := cs.takeWhile Char.isDigit
      if ds.isEmpty then none else some (String.mk ds)
  | .lit c :: rest, cs =>
      match cs with
      | [] => none
      | c' :: cs' => if c' = c then matchToksAt rest cs' else none
  | .optDot :: rest, cs =>
      match cs with
      | '.' :: cs' => matchToksAt rest cs'
      | _ => matchToksAt rest cs
  | .ws :: rest, cs => matchToksAt rest (cs.dropWhile wsChar)

/-- `re.search`: try the pattern at each start position, leftmost first. -/
def searchToks (toks : List RTok) : List Char → Option String
  | [] =>
      matchToksAt toks []
  | c :: cs =>
      match matchToksAt toks (c :: cs) with
      | some r => some r
      | none => searchToks toks cs

/-- Token lists for `X\.?\s*` prefixes. -/
def litSeq (letters : List Char) : List RTok :=
  letters.map RTok.lit

/-- The ordered citation pattern table from
`_match_bill_to_measure` (roll_call_votes.py lines 362-371), in declared
order; Lean rendering of e.g. `H\.?\s*CON\.?\s*RES\.?\s*(\d+)`. -/
def citationPatterns : List (List RTok × String) :=
  [([.lit 'H', .optDot, .ws, .lit 'R', .optDot, .ws], "hr"),
   ([.lit 'S', .optDot, .ws], "s"),
   ([.lit 'H', .optDot, .ws, .lit 'J', .optDot, .ws] ++
      litSeq ['R', 'E', 'S'] ++ [.optDot, .ws], "hjres"),
   ([.lit 'S', .optDot, .ws, .lit 'J', .optDot, .ws] ++
      litSeq ['R', 'E', 'S'] ++ [.optDot, .ws], "sjres"),
   ([.lit 'H', .optDot, .ws] ++ litSeq ['C', 'O', 'N'] ++ [.optDot, .ws] ++
      litSeq ['R', 'E', 'S'] ++ [.optDot, .ws], "hconres"),
   ([.lit 'S', .optDot, .ws] ++ litSeq ['C', 'O', 'N'] ++ [.optDot, .ws] ++
      litSeq ['R', 'E', 'S'] ++ [.optDot, .ws], "sconres"),
   ([.lit 'H', .optDot, .ws] ++ litSeq ['R', 'E', 'S'] ++ [.optDot, .ws], "hres"),
   ([.lit 'S', .optDot, .ws] ++ litSeq ['R', 'E', 'S'] ++ [.optDot, .ws], "sres")]

/-- The parsing loop of `_match_bill_to_measure`: normalize the citation
(`strip().upper()`; `re.IGNORECASE` is absorbed by the uppercasing since
every pattern letter is uppercase), then take the first pattern that
matches; the loop `break`s after the first match, so later patterns are
never consulted.  Returns `(bill_type, captured number)`. -/
def parseBillCitation (billRef : String) : Option (String × String) :=
  let ref := strUpper (pyStrip billRef)
  (citationPatterns.findSome?
    (fun pt =>
      match searchToks pt.1 ref.toList with
      | some num => some (pt.2, num)
      | none => none))

/-! ## Canonical store data model (app/models)

Rows are records; nullable columns are `Option`; the store is a record of
row lists plus a fresh-id counter (modelling `uuid4` defaults) and a flag
modelling whether the persistence layer fails on `commit`. -/

/-- `measures` row (models/measure.py).  Only the columns written by the
connectors and read by the core algorithms are carried. -/
structure Measure where
  id : Nat
  source : String
  externalId : String
  title : String
  level : String
  status : String
  introducedAt : Option Nat
  topicTags : List String
  canonicalKey : String
deriving Repr, DecidableEq

/-- `measure_sources` row (models/measure.py). -/
structure MeasureSource where
  measureId : Nat
  label : String
  url : String
  ctype : String
  isPrimary : Bool
deriving Repr, DecidableEq

/-- `vote_events` row (models/vote.py). -/
structure VoteEvent where
  id : Nat
  measureId : Nat
  body : String
  externalId : String
  heldAt : Option Nat
  result : String
deriving Repr, DecidableEq

/-- `official_votes` row (models/vote.py); key `(voteEventId, officialId)`. -/
structure OfficialVote where
  voteEventId : Nat
  officialId : Nat
  vote : String
deriving Repr, DecidableEq

/-- `officials` row (models/official.py). -/
structure Official where
  id : Nat
  name : String
  office : String
  chamber : Option String
  districtLabel : Option String
  bioguideId : Option String
  lisMemberId : Option String
deriving Repr, DecidableEq

/-- `user_officials` row (models/official.py); key `(userId, officialId)`. -/
structure UserOfficial where
  userId : Nat
  officialId : Nat
  active : Bool
deriving Repr, DecidableEq

/-- `user_votes` row (models/vote.py); unique per `(userId, measureId)`. -/
structure UserVote where
  userId : Nat
  measureId : Nat
  vote : String
  createdAt : Nat
deriving Repr, DecidableEq

/-- Per-official entry of a match-result breakdown
(`match_engine.py` lines 163-194): comparable entries carry no note;
non-comparable entries carry the note `"Vote not recorded"`. -/
structure BreakdownEntry where
  officialId : Nat
  name : String
  office : String
  officialVote : String
  matchesUser : Bool
  note : Option String
deriving Repr, DecidableEq

/-- `match_results` row (models/vote.py); key `(userId, measureId)`. -/
structure MatchResult where
  userId : Nat
  measureId : Nat
  matchScore : ℚ
  breakdown : List BreakdownEntry
  notes : String
deriving Repr, DecidableEq

/-- The canonical store: all row lists, a fresh-id counter, and a flag
making `commit` fail (to study propagation of persistence failures). -/
structure DB where
  measures : List Measure
  measureSources : List MeasureSource
  voteEvents : List VoteEvent
  officialVotes : List OfficialVote
  officials : List Official
  userOfficials : List UserOfficial
  userVotes : List UserVote
  matchResults : List MatchResult
  nextId : Nat
  commitFails : Bool
deriving Repr, DecidableEq

/-- The empty store. -/
def DB.empty : DB :=
  { measures := [], measureSources := [], voteEvents := [],
    officialVotes := [], officials := [], userOfficials := [],
    userVotes := [], matchResults := [], nextId := 0, commitFails := false }

/-- Replace the first list element satisfying `p` by its `f`-image
(models an in-place SQLAlchemy update of the row returned by a
first-match lookup). -/
def updateFirst (p : α → Bool) (f : α → α) : List α → List α
  | [] => []
  | x :: xs => if p x then f x :: xs else x :: updateFirst p f xs

/-! ## Measure upsert (`FederalConnector._upsert_bill`;
`ArizonaConnector.run` uses the identical inline logic)

The normalized field dictionary produced by `_map_bill_to_measure`: every
key is always present; `introduced_at` is the one value that can be
`None` (federal: missing/unparseable `introducedDate`; arizona: missing
`first_action_date`).  The update loop `for key, value in
measure_data.items(): if value is not None: setattr(existing, key, value)`
overwrites every non-null value and skips null ones. -/

/-- The normalized output dictionary of `_map_bill_to_measure`. -/
structure MeasureData where
  source : String
  externalId : String
  title : String
  level : String
  status : String
  introducedAt : Option Nat
  topicTags : List String
  canonicalKey : String
deriving Repr, DecidableEq

/-- Row predicate for the `(source, external_id)` lookup. -/
def measureKeyMatches (md : MeasureData) (m : Measure) : Bool :=
  m.source == md.source && m.externalId == md.externalId

/-- Apply the non-null fields of `md` to an existing row: every always-
present field is overwritten; `introduced_at` is overwritten only when
non-null (`if value is not None`). -/
def mergeMeasure (m : Measure) (md : MeasureData) : Measure :=
  { m with
    source := md.source
    externalId := md.externalId
    title := md.title
    level := md.level
    status := md.status
    introducedAt :=
      match md.introducedAt with
      | some t => some t
      | none => m.introducedAt
    topicTags := md.topicTags
    canonicalKey := md.canonicalKey }

/-- A fresh `measures` row built from `md` (`Measure(**measure_data)`). -/
def newMeasure (id : Nat) (md : MeasureData) : Measure :=
  { id := id, source := md.source, externalId := md.externalId,
    title := md.title, level := md.level, status := md.status,
    introducedAt := md.introducedAt, topicTags := md.topicTags,
    canonicalKey := md.canonicalKey }

/-- `FederalConnector._get_chamber` (federal.py lines 519-525). -/
def getChamber (billType : String) : String :=
  if billType.startsWith "h" then "house"
  else if billType.startsWith "s" then "senate"
  else "house"

/-- `FederalConnector._upsert_bill` (federal.py lines 364-398): look up by
`(source, external_id)`; if found, overwrite only non-null normalized
fields in place; if not found, insert the measure and attach the primary
`MeasureSource` link.  Stats counters are returned alongside the store. -/
def upsertBill (db : DB) (md : MeasureData) (billType billNumber : String)
    (congress : Nat) : DB × String :=
  match db.measures.find? (measureKeyMatches md) with
  | some _ =>
      ({ db with
         measures := updateFirst (measureKeyMatches md)
           (fun m => mergeMeasure m md) db.measures },
       "updated_measures")
  | none =>
      let m := newMeasure db.nextId md
      let sourceUrl :=
        "https://www.congress.gov/bill/" ++ toString congress ++
        "th-congress/" ++ getChamber billType ++ "-bill/" ++ billNumber
      let src : MeasureSource :=
        { measureId := m.id, label := "Congress.gov", url := sourceUrl,
          ctype := "html", isPrimary := true }
      ({ db with
         measures := db.measures ++ [m],
         measureSources := db.measureSources ++ [src],
         nextId := db.nextId + 1 },
       "new_measures")

/-- The inline upsert of `ArizonaConnector.run` (arizona.py lines
280-312): identical lookup/update policy; the new-row branch attaches the
"Arizona Legislature" primary source link (`_get_bill_url` consumes the
raw source record and is passed here as the resolved `billUrl`). -/
def arizonaUpsertBill (db : DB) (md : MeasureData) (billUrl : String) :
    DB × String :=
  match db.measures.find? (measureKeyMatches md) with
  | some _ =>
      ({ db with
         measures := updateFirst (measureKeyMatches md)
           (fun m => mergeMeasure m md) db.measures },
       "updated_measures")
  | none =>
      let m := newMeasure db.nextId md
      let src : MeasureSource :=
        { measureId := m.id, label := "Arizona Legislature", url := billUrl,
          ctype := "html", isPrimary := true }
      ({ db with
         measures := db.measures ++ [m],
         measureSources := db.measureSources ++ [src],
         nextId := db.nextId + 1 },
       "new_measures")

/-! ## Roll-call vote ingestion (`RollCallVoteService`)

The XML fetching/parsing boundary (`httpx`, `ElementTree`, `strptime`) is
external; a document is modelled as the fields the service extracts from
the parsed tree.  `None` models a missing element; for text nodes the
code applies `(text or "")` so missing text is carried as `""`. -/

/-- `VOTE_MAP.get(vote_text, "unknown")` (roll_call_votes.py lines 27-36). -/
def voteMapLookup (t : String) : String :=
  if t == "yea" then "yea"
  else if t == "aye" then "yea"
  else if t == "yes" then "yea"
  else if t == "nay" then "nay"
  else if t == "no" then "nay"
  else if t == "present" then "present"
  else if t == "not voting" then "not_voting"
  else if t == "not_voting" then "not_voting"
  else "unknown"

/-- Last-wins association lookup: a Python dict built by iterating
`(key, value)` pairs keeps the last binding for each key. -/
def dictGet (l : List (String × Nat)) (k : String) : Option Nat :=
  (l.reverse.find? (fun kv => kv.1 == k)).map (fun kv => kv.2)

/-- Last-wins lookup for the senate `(last_name, state)` fallback map. -/
def dictGetPair (l : List ((String × String) × Nat)) (k : String × String) :
    Option Nat :=
  (l.reverse.find? (fun kv => kv.1 == k)).map (fun kv => kv.2)

/-- `RollCallVoteService._build_bioguide_map` (lines 388-396):
`{bioguide_id: official.id}` over officials with a non-null, non-empty
`bioguide_id`. -/
def buildBioguideMap (db : DB) : List (String × Nat) :=
  (db.officials.filter
    (fun o => o.bioguideId.isSome && !(o.bioguideId == some ""))).map
    (fun o => (o.bioguideId.getD "", o.id))

/-- Last-name extraction of `_build_senate_maps` (lines 416-422): parse
`"LastName, FirstName"`, else take the final whitespace-separated token. -/
def senateLastName (name : String) : String :=
  if strContains name "," then
    strLower (pyStrip ((name.splitOn ",").headD ""))
  else
    strLower ((pyWords name).getLastD "")

/-- `RollCallVoteService._build_senate_maps` (lines 398-429): the
`lis_member_id -> official.id` direct map and the
`(last_name_lower, state_upper) -> official` fallback map, built over
officials with `chamber == "us_senate"`.  The Python fallback dict holds
live ORM objects; since attribute reads on them see in-loop mutations,
the map is modelled as carrying the official's id, with current state
read back from the store. -/
def buildSenateMaps (db : DB) :
    List (String × Nat) × List ((String × String) × Nat) :=
  let senators := db.officials.filter (fun o => o.chamber == some "us_senate")
  let lisMap := (senators.filter (fun o => !(optStrFalsy o.lisMemberId))).map
    (fun o => (o.lisMemberId.getD "", o.id))
  let nameStateMap := (senators.filterMap
    (fun o =>
      let lastName := senateLastName o.name
      let state := strUpper (o.districtLabel.getD "")
      if lastName != "" && state != "" then some ((lastName, state), o.id)
      else none))
  (lisMap, nameStateMap)

/-- One `recorded-vote` element of a House roll-call document:
`legislatorId` is the `name-id` attribute of the `legislator` child
(`none` when the child is missing; `get("name-id", "")` otherwise),
`voteText` is the text of the `vote` child (`none` when missing). -/
structure HouseRecordedVote where
  legislatorId : Option String
  voteText : Option String
deriving Repr, DecidableEq

/-- A parsed House roll-call XML document (the fields
`_process_house_vote_xml` extracts). -/
structure HouseVoteDoc where
  legisNum : Option String
  actionDate : Option Nat
  voteResult : Option String
  recordedVotes : List HouseRecordedVote
deriving Repr, DecidableEq

/-- One `member` element of a Senate roll-call document. -/
structure SenateMember where
  lisMemberId : Option String
  lastName : Option String
  state : Option String
  voteCast : Option String
deriving Repr, DecidableEq

/-- A parsed Senate roll-call XML document (the fields
`_process_senate_vote_xml` extracts). -/
structure SenateVoteDoc where
  documentName : Option String
  voteDate : Option Nat
  voteResult : Option String
  members : List SenateMember
deriving Repr, DecidableEq

/-- `RollCallVoteService._match_bill_to_measure` (lines 353-386): parse
the citation; on a parse hit build
`us:congress:{congress}:{bill_type}:{number}` and look up the measure id
by `canonical_key`; the loop breaks after the first pattern match, so a
failed lookup is final. -/
def matchBillToMeasure (db : DB) (billRef : String) (congress : Nat) :
    Option Nat :=
  match parseBillCitation billRef with
  | none => none
  | some (billType, num) =>
      let canonicalKey :=
        "us:congress:" ++ toString congress ++ ":" ++ billType ++ ":" ++ num
      (db.measures.find? (fun m => m.canonicalKey == canonicalKey)).map
        (fun m => m.id)

/-- House result-text keyword mapping (lines 148-155). -/
def houseResultText (voteResult : Option String) : String :=
  match voteResult with
  | some t =>
      if t != "" then
        let lower := strLower t
        if strContains lower "passed" || strContains lower "agreed" then
          "passed"
        else if strContains lower "failed" || strContains lower "rejected" then
          "failed"
        else "unknown"
      else "unknown"
  | none => "unknown"

/-- Senate result-text keyword mapping (lines 289-297). -/
def senateResultText (voteResult : Option String) : String :=
  match voteResult with
  | some t =>
      if t != "" then
        let lower := strLower t
        if strContains lower "agreed" || strContains lower "passed" ||
            strContains lower "confirmed" then
          "passed"
        else if strContains lower "rejected" || strContains lower "failed" then
          "failed"
        else "unknown"
      else "unknown"
  | none => "unknown"

/-- Per-`recorded-vote` step of `_process_house_vote_xml` (lines
170-190): resolve the legislator through the bioguide map (skip on a
miss or missing `legislator` element), normalize the vote text, and add
one `OfficialVote` row. -/
def processHouseRecordedVote (db : DB) (veId : Nat)
    (bioguideMap : List (String × Nat)) (rv : HouseRecordedVote) : DB :=
  match rv.legislatorId with
  | none => db
  | some bid =>
      let voteText := strLower (pyStrip (rv.voteText.getD ""))
      match dictGet bioguideMap bid with
      | none => db
      | some officialId =>
          { db with
            officialVotes := db.officialVotes ++
              [{ voteEventId := veId, officialId := officialId,
                 vote := voteMapLookup voteText }] }

/-- The House idempotency key `house:{congress}:{session}:{roll}` (line
116). -/
def houseExternalId (congress session rollNum : Nat) : String :=
  "house:" ++ toString congress ++ ":" ++ toString session ++ ":" ++
    toString rollNum

/-- The Senate idempotency key `senate:{congress}:{session}:{vote}`
(line 252). -/
def senateExternalId (congress session voteNum : Nat) : String :=
  "senate:" ++ toString congress ++ ":" ++ toString session ++ ":" ++
    toString voteNum

/-- Bill-citation resolution of `_process_house_vote_xml` (lines
123-129): the `legis-num` element must be present with non-empty text,
then `_match_bill_to_measure` runs on it. -/
def houseMeasureLookup (db : DB) (doc : HouseVoteDoc) (congress : Nat) :
    Option Nat :=
  match doc.legisNum with
  | some t => if t != "" then matchBillToMeasure db t congress else none
  | none => none

/-- `_process_house_vote_xml` (lines 108-192): skip when the idempotency
key already names a `VoteEvent`; skip when the bill citation resolves to
no tracked measure; otherwise create the `VoteEvent` and one
`OfficialVote` per resolvable legislator. -/
def processHouseVoteXml (db : DB) (doc : HouseVoteDoc)
    (congress session rollNum : Nat) (bioguideMap : List (String × Nat)) :
    DB :=
  let externalId := houseExternalId congress session rollNum
  if db.voteEvents.any (fun ve => ve.externalId == externalId) then
    db
  else
    match houseMeasureLookup db doc congress with
    | none => db
    | some mid =>
        let ve : VoteEvent :=
          { id := db.nextId, measureId := mid, body := "U.S. House",
            externalId := externalId, heldAt := doc.actionDate,
            result := houseResultText doc.voteResult }
        let db1 :=
          { db with voteEvents := db.voteEvents ++ [ve],
                    nextId := db.nextId + 1 }
        doc.recordedVotes.foldl
          (fun acc rv => processHouseRecordedVote acc ve.id bioguideMap rv)
          db1

/-- The `lis_id` extraction of the senate member loop (line 313):
`lis_id_el.text.strip()` when the element is present with non-empty
text, `""` otherwise. -/
def senateMemberLisId (mem : SenateMember) : String :=
  match mem.lisMemberId with
  | some t => if t != "" then pyStrip t else ""
  | none => ""

/-- The backfill guard `not matched_official.lis_member_id` (line 333),
read off the matched official's current record. -/
def senateLisMissing (db : DB) (officialId : Nat) : Bool :=
  match db.officials.find? (fun o => o.id == officialId) with
  | some o => optStrFalsy o.lisMemberId
  | none => false

/-- Backfill the matched official's missing `lis_member_id` (line 334). -/
def backfillLis (db : DB) (officialId : Nat) (lisId : String) : DB :=
  { db with
    officials := db.officials.map
      (fun o =>
        if o.id == officialId then { o with lisMemberId := some lisId }
        else o) }

/-- Per-`member` step of `_process_senate_vote_xml` (lines 311-347):
primary `lis_member_id` lookup, then the `(last_name, state)` fallback
with backfill of a missing `lis_member_id` onto the matched official,
then one `OfficialVote` row for the resolved official. -/
def processSenateMember (db : DB) (veId : Nat)
    (lisMap : List (String × Nat))
    (nameStateMap : List ((String × String) × Nat)) (mem : SenateMember) :
    DB :=
  let lisId := senateMemberLisId mem
  let voteText := strLower (pyStrip (mem.voteCast.getD ""))
  let addVote := fun (acc : DB) (officialId : Nat) =>
    { acc with
      officialVotes := acc.officialVotes ++
        [{ voteEventId := veId, officialId := officialId,
           vote := voteMapLookup voteText }] }
  match dictGet lisMap lisId with
  | some officialId => addVote db officialId
  | none =>
      match mem.lastName, mem.state with
      | some lastNameT, some stateT =>
          let key := (strLower (pyStrip lastNameT), strUpper (pyStrip stateT))
          match dictGetPair nameStateMap key with
          | some officialId =>
              let db' :=
                if lisId != "" && senateLisMissing db officialId then
                  backfillLis db officialId lisId
                else db
              addVote db' officialId
          | none => db
      | _, _ => db

/-- Bill-citation resolution of `_process_senate_vote_xml` (lines
259-269): the `document/document_name` element must be present with
non-empty text, then `_match_bill_to_measure` runs on it. -/
def senateMeasureLookup (db : DB) (doc : SenateVoteDoc) (congress : Nat) :
    Option Nat :=
  match doc.documentName with
  | some t => if t != "" then matchBillToMeasure db t congress else none
  | none => none

/-- `_process_senate_vote_xml` (lines 245-349): skip on an existing
idempotency key; skip when the document citation resolves to no tracked
measure; otherwise create the `VoteEvent` and process each member. -/
def processSenateVoteXml (db : DB) (doc : SenateVoteDoc)
    (congress session voteNum : Nat) (lisMap : List (String × Nat))
    (nameStateMap : List ((String × String) × Nat)) : DB :=
  let externalId := senateExternalId congress session voteNum
  if db.voteEvents.any (fun ve => ve.externalId == externalId) then
    db
  else
    match senateMeasureLookup db doc congress with
    | none => db
    | some mid =>
        let ve : VoteEvent :=
          { id := db.nextId, measureId := mid, body := "U.S. Senate",
            externalId := externalId, heldAt := doc.voteDate,
            result := senateResultText doc.voteResult }
        let db1 :=
          { db with voteEvents := db.voteEvents ++ [ve],
                    nextId := db.nextId + 1 }
        doc.members.foldl
          (fun acc mem => processSenateMember acc ve.id lisMap nameStateMap mem)
          db1

/-! ## Alignment engine (`MatchEngine`, services/match_engine.py)

`_compute_user_match` always returns a dict with a float score, a
breakdown and a notes string; `compute_matches_for_measure` wraps the
whole computation in `try/except Exception`, returning `0` after a
rollback on any failure. -/

/-- Round-half-to-even to an integer (Python `round`'s tie rule), as an
executable function on rationals: with `q = n / d` in lowest terms and
floor `fl`, compare twice the remainder against the denominator. -/
def roundHalfEven (q : ℚ) : ℤ :=
  let n := q.num
  let d := (q.den : ℤ)
  let fl := Int.fdiv n d
  let r := n - fl * d
  if 2 * r < d then fl
  else if d < 2 * r then fl + 1
  else if fl % 2 = 0 then fl else fl + 1

/-- Python `round(x, 3)` modelled over exact rationals.  (Python rounds
the binary float nearest `x`; every score the claims below exercise is
exactly representable with three decimal digits, where both agree and
rounding is the identity.) -/
def roundTo3 (q : ℚ) : ℚ :=
  (roundHalfEven (q * 1000) : ℚ) / 1000

/-- The result dictionary of `MatchEngine._compute_user_match`. -/
structure MatchOutcome where
  score : ℚ
  breakdown : List BreakdownEntry
  notes : String
deriving Repr, DecidableEq

/-- The officials query of `_compute_user_match` (lines 126-131):
`select(Official).join(UserOfficial)` filtered on the user id and
`UserOfficial.active == True`.  (The `measure_level` parameter of the
source function is never used.) -/
def activeOfficials (db : DB) (userId : Nat) : List Official :=
  db.officials.filter
    (fun o => db.userOfficials.any
      (fun uo => uo.userId == userId && uo.officialId == o.id && uo.active))

/-- The `{ov.official_id: ov.vote}` dict (line 149) over the official
votes of the relevant vote events; a Python dict keeps the last binding. -/
def officialVoteMapGet (officialVotes : List OfficialVote) (oid : Nat) :
    Option String :=
  (officialVotes.reverse.find? (fun ov => ov.officialId == oid)).map
    (fun ov => ov.vote)

/-- The comparison loop of `_compute_user_match` (lines 152-194):
returns `(matches, total, breakdown)`.  A missing, empty or `"unknown"`
vote is recorded as non-comparable and skipped; every other recorded
vote increments `total`, and matches exactly when user `"yes"` meets
official `"yea"` or user `"no"` meets official `"nay"`. -/
def voteCompareLoop (userVoteNorm : String)
    (relevantVotes : List OfficialVote) :
    List Official → Nat × Nat × List BreakdownEntry
  | [] => (0, 0, [])
  | o :: rest =>
      let tail := voteCompareLoop userVoteNorm relevantVotes rest
      match officialVoteMapGet relevantVotes o.id with
      | none =>
          (tail.1, tail.2.1,
           { officialId := o.id, name := o.name, office := o.office,
             officialVote := "unknown", matchesUser := false,
             note := some "Vote not recorded" } :: tail.2.2)
      | some v =>
          if v == "" || v == "unknown" then
            (tail.1, tail.2.1,
             { officialId := o.id, name := o.name, office := o.office,
               officialVote := if v == "" then "unknown" else v,
               matchesUser := false,
               note := some "Vote not recorded" } :: tail.2.2)
          else
            let vNorm := strLower v
            let isMatch :=
              (userVoteNorm == "yes" && vNorm == "yea") ||
              (userVoteNorm == "no" && vNorm == "nay")
            ((if isMatch then 1 else 0) + tail.1, tail.2.1 + 1,
             { officialId := o.id, name := o.name, office := o.office,
               officialVote := v, matchesUser := isMatch,
               note := none } :: tail.2.2)

/-- The official votes belonging to the given vote events (lines
141-146). -/
def relevantOfficialVotes (db : DB) (voteEvents : List VoteEvent) :
    List OfficialVote :=
  let voteEventIds := voteEvents.map (fun ve => ve.id)
  db.officialVotes.filter (fun ov => voteEventIds.contains ov.voteEventId)

/-- `MatchEngine._compute_user_match` (lines 106-203).  With no active
officials the result is the fixed score-`0.0` dictionary; otherwise the
score is `matches / total` when `total > 0` and `0.0` when `total == 0`,
rounded to three decimal places. -/
def computeUserMatch (db : DB) (uv : UserVote)
    (voteEvents : List VoteEvent) : MatchOutcome :=
  let userOfficials := activeOfficials db uv.userId
  if userOfficials.isEmpty then
    { score := 0, breakdown := [], notes := "No officials found for user" }
  else
    let relevant := relevantOfficialVotes db voteEvents
    let r := voteCompareLoop (strLower uv.vote) relevant userOfficials
    let matchScore : ℚ := if r.2.1 > 0 then (r.1 : ℚ) / (r.2.1 : ℚ) else 0
    { score := roundTo3 matchScore,
      breakdown := r.2.2,
      notes := "Matched " ++ toString r.1 ++ " of " ++ toString r.2.1 ++
        " officials" }

/-- The comparable-vote denominator of a user-match computation (the
`total` counter of the comparison loop). -/
def comparableTotal (db : DB) (uv : UserVote)
    (voteEvents : List VoteEvent) : Nat :=
  (voteCompareLoop (strLower uv.vote) (relevantOfficialVotes db voteEvents)
    (activeOfficials db uv.userId)).2.1

/-- The `MatchResult` upsert of `compute_matches_for_measure` (lines
74-95): update the `(user_id, measure_id)` row in place, or add a new
one. -/
def upsertMatchResult (db : DB) (uv : UserVote) (measureId : Nat)
    (mo : MatchOutcome) : DB :=
  let keyed := fun (mr : MatchResult) =>
    mr.userId == uv.userId && mr.measureId == measureId
  if db.matchResults.any keyed then
    { db with
      matchResults := updateFirst keyed
        (fun mr =>
          { mr with matchScore := mo.score, breakdown := mo.breakdown,
                    notes := mo.notes }) db.matchResults }
  else
    { db with
      matchResults := db.matchResults ++
        [{ userId := uv.userId, measureId := measureId,
           matchScore := mo.score, breakdown := mo.breakdown,
           notes := mo.notes }] }

/-- A persistence-layer failure surfaced by the session. -/
inductive PersistFailure where
  | commitFailed
deriving Repr, DecidableEq

deriving instance DecidableEq for Except

/-- The `try`-block body of `MatchEngine.compute_matches_for_measure`
(lines 39-99): the three "no data to score" conditions return a defined
`0` without touching the store; otherwise every user vote on the measure
gets an upserted `MatchResult` (the result dict is always truthy, so
every user vote counts), and the final `commit` surfaces a persistence
failure when the session is failing. -/
def computeMatchesBody (db : DB) (measureId : Nat) :
    Except PersistFailure (DB × Nat) :=
  match db.measures.find? (fun m => m.id == measureId) with
  | none => Except.ok (db, 0)
  | some _ =>
      let voteEvents := db.voteEvents.filter
        (fun ve => ve.measureId == measureId)
      if voteEvents.isEmpty then Except.ok (db, 0)
      else
        let userVotes := db.userVotes.filter
          (fun uv => uv.measureId == measureId)
        if userVotes.isEmpty then Except.ok (db, 0)
        else
          let db' := userVotes.foldl
            (fun acc uv =>
              upsertMatchResult acc uv measureId
                (computeUserMatch acc uv voteEvents))
            db
          if db.commitFails then Except.error PersistFailure.commitFailed
          else Except.ok (db', userVotes.length)

/-- `MatchEngine.compute_matches_for_measure` (lines 23-104): the whole
body runs under `try/except Exception`; any raised error is logged, the
session rolled back, and `0` returned — the function itself never
propagates an exception. -/
def computeMatchesForMeasure (db : DB) (measureId : Nat) : DB × Nat :=
  match computeMatchesBody db measureId with
  | Except.ok r => r
  | Except.error _ => (db, 0)

/-! ## Cache, swipe and dashboard endpoints
(core/cache.py, endpoints/voting.py, endpoints/dashboard.py)

The Redis cache is a keyed store with per-entry expiry; time is an
explicit `now : Nat` parameter.  The dashboard aggregate is the single
SQL aggregation query of `get_dashboard`, embedded over the joined
`(user_vote, measure)` rows. -/

/-- `dashboard.py` recent-activity row. -/
structure RecentActivity where
  measureId : Nat
  title : String
  level : String
  userVote : String
  votedAt : Nat
  outcome : Option String
deriving Repr, DecidableEq

/-- `DashboardStats` of schemas.py as populated by `get_dashboard`. -/
structure DashboardStats where
  totalVotes : Nat
  yeaVotes : Nat
  nayVotes : Nat
  skipped : Nat
  measuresPassed : Nat
  measuresFailed : Nat
  measuresPending : Nat
  alignmentScore : Option ℚ
  houseAlignment : Option ℚ
  senateAlignment : Option ℚ
  congressAlignment : Option ℚ
deriving Repr, DecidableEq

/-- The response payload cached under the dashboard key. -/
structure DashboardResponse where
  stats : DashboardStats
  recentActivity : List RecentActivity
deriving Repr, DecidableEq

/-- A cached payload: the dashboard response, or the representatives
list cached by the representatives endpoint (opaque here — its content
plays no role in the invalidation behaviour under study). -/
inductive CacheValue where
  | dashboardValue (r : DashboardResponse)
  | repsValue
deriving Repr, DecidableEq

/-- One Redis entry: key, value, absolute expiry instant (`set ... ex=ttl`). -/
structure CacheEntry where
  key : String
  value : CacheValue
  expiresAt : Nat
deriving Repr, DecidableEq

/-- `cache_get`: the stored value when the key is present and unexpired. -/
def cacheGetEntry (cache : List CacheEntry) (now : Nat) (k : String) :
    Option CacheValue :=
  (cache.find? (fun e => e.key == k && now < e.expiresAt)).map
    (fun e => e.value)

/-- `cache_set key value ttl`: replace any entry at the key. -/
def cacheSet (cache : List CacheEntry) (now : Nat) (k : String)
    (v : CacheValue) (ttl : Nat) : List CacheEntry :=
  (cache.filter (fun e => e.key != k)) ++
    [{ key := k, value := v, expiresAt := now + ttl }]

/-- `cache_delete key`. -/
def cacheDelete (cache : List CacheEntry) (k : String) : List CacheEntry :=
  cache.filter (fun e => e.key != k)

/-- `reps_key(user_id)` (cache.py line 102). -/
def repsKey (userId : Nat) : String :=
  "user:" ++ toString userId ++ ":reps"

/-- `dashboard_key(user_id)` (cache.py line 106). -/
def dashboardKey (userId : Nat) : String :=
  "user:" ++ toString userId ++ ":dashboard"

/-- Application state seen by the endpoints: canonical store plus cache. -/
structure AppState where
  db : DB
  cache : List CacheEntry
deriving Repr, DecidableEq

/-- The `swipe` endpoint (voting.py lines 19-86): 404 (no state change)
when the measure is missing; otherwise record or overwrite the user's
vote, then `cache_delete(reps_key(user_id))` — the only cache key it
touches. -/
def swipe (st : AppState) (now : Nat) (userId measureId : Nat)
    (vote : String) : AppState :=
  match st.db.measures.find? (fun m => m.id == measureId) with
  | none => st
  | some _ =>
      let keyed := fun (uv : UserVote) =>
        uv.userId == userId && uv.measureId == measureId
      let db' :=
        if st.db.userVotes.any keyed then
          { st.db with
            userVotes := updateFirst keyed (fun uv => { uv with vote := vote })
              st.db.userVotes }
        else
          { st.db with
            userVotes := st.db.userVotes ++
              [{ userId := userId, measureId := measureId, vote := vote,
                 createdAt := now }] }
      { db := db', cache := cacheDelete st.cache (repsKey userId) }

/-- The joined `(user_vote, measure)` rows of the dashboard aggregation
query (`.join(Measure, UserVote.measure_id == Measure.id)` filtered on
the user). -/
def dashboardRows (db : DB) (userId : Nat) : List (UserVote × Measure) :=
  db.userVotes.filterMap
    (fun uv =>
      if uv.userId == userId then
        (db.measures.find? (fun m => m.id == uv.measureId)).map
          (fun m => (uv, m))
      else none)

/-- `_alignment_match` (dashboard.py lines 38-41). -/
def alignmentMatchB (uv : UserVote) (m : Measure) : Bool :=
  (uv.vote == "yes" && m.status == "passed") ||
  (uv.vote == "no" && m.status == "failed")

/-- `_has_outcome` (dashboard.py line 42). -/
def hasOutcomeB (m : Measure) : Bool :=
  m.status == "passed" || m.status == "failed"

/-- `_is_federal` (dashboard.py line 19). -/
def isFederalB (m : Measure) : Bool :=
  m.level == "federal"

/-- `_is_house` (dashboard.py lines 20-28), `LIKE` patterns as substring
containments. -/
def isHouseB (m : Measure) : Bool :=
  isFederalB m &&
    (strContains m.externalId "-hr-" || strContains m.externalId "-hjres-" ||
     strContains m.externalId "-hconres-" || strContains m.externalId "-hres-")

/-- `_is_senate` (dashboard.py lines 29-37). -/
def isSenateB (m : Measure) : Bool :=
  isFederalB m &&
    (strContains m.externalId "-s-" || strContains m.externalId "-sjres-" ||
     strContains m.externalId "-sconres-" || strContains m.externalId "-sres-")

/-- Python `round(x, 1)` modelled over exact rationals (see
`roundTo3`). -/
def roundTo1 (q : ℚ) : ℚ :=
  (roundHalfEven (q * 10) : ℚ) / 10

/-- `_pct` (dashboard.py lines 107-110): a percentage rounded to one
decimal, `None` on a zero denominator. -/
def pct (m t : Nat) : Option ℚ :=
  if t > 0 then some (roundTo1 ((m : ℚ) / (t : ℚ) * 100))
  else none

/-- The `(matches, total)` pair of `_alignment_cols` for a chamber
filter. -/
def alignmentCols (rows : List (UserVote × Measure))
    (chamberFilter : Measure → Bool) : Nat × Nat :=
  (rows.countP
     (fun r => chamberFilter r.2 && hasOutcomeB r.2 && alignmentMatchB r.1 r.2),
   rows.countP (fun r => chamberFilter r.2 && hasOutcomeB r.2))

/-- Insertion step for ordering rows by `created_at` descending. -/
def insertDescByCreated (x : UserVote × Measure) :
    List (UserVote × Measure) → List (UserVote × Measure)
  | [] => [x]
  | y :: ys =>
      if y.1.createdAt ≤ x.1.createdAt then x :: y :: ys
      else y :: insertDescByCreated x ys

/-- `ORDER BY created_at DESC` (insertion sort; ties are left in an
arbitrary but fixed order, as in SQL). -/
def sortByCreatedDesc (rows : List (UserVote × Measure)) :
    List (UserVote × Measure) :=
  rows.foldr insertDescByCreated []

/-- The dashboard computation of `get_dashboard` (dashboard.py lines
72-155): the single aggregation query plus the five most recent
activity rows. -/
def computeDashboard (db : DB) (userId : Nat) : DashboardResponse :=
  let rows := dashboardRows db userId
  let overall := alignmentCols rows (fun _ => true)
  let house := alignmentCols rows isHouseB
  let senate := alignmentCols rows isSenateB
  let congress := alignmentCols rows isFederalB
  let recent := ((sortByCreatedDesc rows).take 5).map
    (fun r =>
      { measureId := r.2.id, title := r.2.title, level := r.2.level,
        userVote := r.1.vote, votedAt := r.1.createdAt,
        outcome := if hasOutcomeB r.2 then some r.2.status else none })
  { stats :=
      { totalVotes := rows.length,
        yeaVotes := rows.countP (fun r => r.1.vote == "yes"),
        nayVotes := rows.countP (fun r => r.1.vote == "no"),
        skipped := rows.countP (fun r => r.1.vote == "skip"),
        measuresPassed := rows.countP (fun r => r.2.status == "passed"),
        measuresFailed := rows.countP (fun r => r.2.status == "failed"),
        measuresPending := rows.countP (fun r => !hasOutcomeB r.2),
        alignmentScore := pct overall.1 overall.2,
        houseAlignment := pct house.1 house.2,
        senateAlignment := pct senate.1 senate.2,
        congressAlignment := pct congress.1 congress.2 },
    recentActivity := recent }

/-- The `get_dashboard` endpoint (dashboard.py lines 57-158): serve the
cached payload when the dashboard key is live; otherwise compute the
response and cache it with a 120-second TTL. -/
def getDashboard (st : AppState) (now : Nat) (userId : Nat) :
    DashboardResponse × AppState :=
  match cacheGetEntry st.cache now (dashboardKey userId) with
  | some (CacheValue.dashboardValue r) => (r, st)
  | _ =>
      let resp := computeDashboard st.db userId
      (resp,
       { st with
         cache := cacheSet st.cache now (dashboardKey userId)
           (CacheValue.dashboardValue resp) 120 })

/-! ## Helper lemmas -/

theorem updateFirst_append_of_neg (p : α → Bool) (f : α → α)
    (l l' : List α) (h : ∀ x ∈ l, ¬ p x) :
    updateFirst p f (l ++ l') = l ++ updateFirst p f l' := by
  induction l with
  | nil => rfl
  | cons x xs ih =>
      have hx : ¬ p x := h x (List.mem_cons_self x xs)
      simp only [List.cons_append, updateFirst, if_neg hx, List.cons.injEq,
        true_and]
      exact ih (fun y hy => h y (List.mem_cons_of_mem x hy))

theorem updateFirst_find?_some {p : α → Bool} {f : α → α} {l : List α}
    {a : α} (h : l.find? p = some a) (hfa : p (f a)) :
    (updateFirst p f l).find? p = some (f a) := by
  induction l with
  | nil => simp at h
  | cons x xs ih =>
      by_cases hx : p x
      · rw [List.find?_cons_of_pos _ hx] at h
        injection h with h
        subst h
        simp only [updateFirst, if_pos hx]
        exact List.find?_cons_of_pos _ hfa
      · rw [List.find?_cons_of_neg _ hx] at h
        simp only [updateFirst, if_neg hx]
        rw [List.find?_cons_of_neg _ hx]
        exact ih h

theorem updateFirst_idem (p : α → Bool) (f : α → α) (l : List α)
    (h1 : ∀ x, p x → p (f x)) (h2 : ∀ x, p x → f (f x) = f x) :
    updateFirst p f (updateFirst p f l) = updateFirst p f l := by
  induction l with
  | nil => rfl
  | cons x xs ih =>
      by_cases hx : p x
      · simp only [updateFirst, if_pos hx, if_pos (h1 x hx), h2 x hx]
      · simp only [updateFirst, if_neg hx, ih]

theorem mergeMeasure_key (m : Measure) (md : MeasureData) :
    measureKeyMatches md (mergeMeasure m md) = true := by
  simp [measureKeyMatches, mergeMeasure]

theorem newMeasure_key (i : Nat) (md : MeasureData) :
    measureKeyMatches md (newMeasure i md) = true := by
  simp [measureKeyMatches, newMeasure]

theorem mergeMeasure_idem (m : Measure) (md : MeasureData) :
    mergeMeasure (mergeMeasure m md) md = mergeMeasure m md := by
  cases h : md.introducedAt <;> simp [mergeMeasure, h]

theorem mergeMeasure_newMeasure (i : Nat) (md : MeasureData) :
    mergeMeasure (newMeasure i md) md = newMeasure i md := by
  cases h : md.introducedAt <;> simp [mergeMeasure, newMeasure, h]

/-- Claim C5: the measure upsert looks up by `(source, external_id)`, a found
row is updated in place overwriting only non-null normalized fields
(`introduced_at` is the nullable one; a null never overwrites existing
data, and the row id is preserved), and re-running the same upsert on the
same normalized data is a no-op: the second run takes the update branch
(zero new rows) and changes no field, for the federal and for the
arizona connector alike. -/
theorem C5_upsert_idempotent (db : DB) (md : MeasureData)
    (billType billNumber : String) (congress : Nat) (billUrl : String) :
    (upsertBill (upsertBill db md billType billNumber congress).1 md
        billType billNumber congress).1 =
      (upsertBill db md billType billNumber congress).1
    ∧ (upsertBill (upsertBill db md billType billNumber congress).1 md
        billType billNumber congress).2 = "updated_measures"
    ∧ (arizonaUpsertBill (arizonaUpsertBill db md billUrl).1 md billUrl).1 =
      (arizonaUpsertBill db md billUrl).1
    ∧ (md.introducedAt = none →
        ∀ m : Measure, (mergeMeasure m md).introducedAt = m.introducedAt)
    ∧ (∀ m : Measure, (mergeMeasure m md).id = m.id
        ∧ (mergeMeasure m md).status = md.status
        ∧ (mergeMeasure m md).title = md.title) := by
  have hidem := updateFirst_idem (measureKeyMatches md)
    (fun x => mergeMeasure x md) db.measures
    (fun x _ => mergeMeasure_key x md) (fun x _ => mergeMeasure_idem x md)
  refine ⟨?_, ?_, ?_, ?_, ?_⟩
  · cases h : db.measures.find? (measureKeyMatches md) with
    | some m =>
        have hfind2 := @updateFirst_find?_some _ (measureKeyMatches md)
          (fun x => mergeMeasure x md) db.measures m h (mergeMeasure_key m md)
        simp [upsertBill, h, hfind2, hidem]
    | none =>
        have hall : ∀ x ∈ db.measures, ¬ measureKeyMatches md x :=
          List.find?_eq_none.mp h
        have hfind2 : (db.measures ++ [newMeasure db.nextId md]).find?
            (measureKeyMatches md) = some (newMeasure db.nextId md) := by
          rw [List.find?_append, h]
          simp [newMeasure_key]
        simp [upsertBill, h, hfind2]
        rw [updateFirst_append_of_neg _ _ _ _ hall]
        simp [updateFirst, newMeasure_key, mergeMeasure_newMeasure]
  · cases h : db.measures.find? (measureKeyMatches md) with
    | some m =>
        have hfind2 := @updateFirst_find?_some _ (measureKeyMatches md)
          (fun x => mergeMeasure x md) db.measures m h (mergeMeasure_key m md)
        simp [upsertBill, h, hfind2]
    | none =>
        have hfind2 : (db.measures ++ [newMeasure db.nextId md]).find?
            (measureKeyMatches md) = some (newMeasure db.nextId md) := by
          rw [List.find?_append, h]
          simp [newMeasure_key]
        simp [upsertBill, h, hfind2]
  · cases h : db.measures.find? (measureKeyMatches md) with
    | some m =>
        have hfind2 := @updateFirst_find?_some _ (measureKeyMatches md)
          (fun x => mergeMeasure x md) db.measures m h (mergeMeasure_key m md)
        simp [arizonaUpsertBill, h, hfind2, hidem]
    | none =>
        have hall : ∀ x ∈ db.measures, ¬ measureKeyMatches md x :=
          List.find?_eq_none.mp h
        have hfind2 : (db.measures ++ [newMeasure db.nextId md]).find?
            (measureKeyMatches md) = some (newMeasure db.nextId md) := by
          rw [List.find?_append, h]
          simp [newMeasure_key]
        simp [arizonaUpsertBill, h, hfind2]
        rw [updateFirst_append_of_neg _ _ _ _ hall]
        simp [updateFirst, newMeasure_key, mergeMeasure_newMeasure]
  · intro hnone m
    simp [mergeMeasure, hnone]
  · intro m
    refine ⟨rfl, rfl, rfl⟩

/-! ## Concrete fixtures for witnesses and counterexamples -/

/-- A federal measure tracked under canonical key `us:congress:119:hr:1`. -/
def exMeasure : Measure :=
  { id := 1, source := "congress", externalId := "119-hr-1",
    title := "A bill", level := "federal", status := "passed",
    introducedAt := none, topicTags := [],
    canonicalKey := "us:congress:119:hr:1" }

/-- A House member with a bioguide id. -/
def exOfficialHouse : Official :=
  { id := 10, name := "Alice Rep", office := "U.S. Representative",
    chamber := some "us_house", districtLabel := some "CD-01",
    bioguideId := some "A0001", lisMemberId := none }

/-- A senator carrying a LIS member id. -/
def exOfficialSenate : Official :=
  { id := 11, name := "Bob Sen", office := "U.S. Senator",
    chamber := some "us_senate", districtLabel := some "AZ",
    bioguideId := none, lisMemberId := some "S100" }

/-- A senator with no LIS member id on file (fallback-match target). -/
def exSenatorNoLis : Official :=
  { id := 12, name := "Carol Sen", office := "U.S. Senator",
    chamber := some "us_senate", districtLabel := some "AZ",
    bioguideId := none, lisMemberId := none }

/-- User 5's "yes" vote on the measure. -/
def exUserVote : UserVote :=
  { userId := 5, measureId := 1, vote := "yes", createdAt := 3 }

/-- A vote event on the measure. -/
def exVoteEvent : VoteEvent :=
  { id := 20, measureId := 1, body := "U.S. House",
    externalId := "house:119:1:7", heldAt := none, result := "passed" }

/-- Store where user 5 voted but has no active officials. -/
def exDBNoOfficials : DB :=
  { DB.empty with
    measures := [exMeasure], voteEvents := [exVoteEvent],
    userVotes := [exUserVote], nextId := 100 }

/-- Store where user 5 has two active officials but no official vote is
recorded on the measure. -/
def exDBNoComparable : DB :=
  { exDBNoOfficials with
    officials := [exOfficialHouse, exOfficialSenate],
    userOfficials :=
      [{ userId := 5, officialId := 10, active := true },
       { userId := 5, officialId := 11, active := true }] }

/-- Store where the two active officials voted `"yea"` and `"nay"`. -/
def exDBYeaNay : DB :=
  { exDBNoComparable with
    officialVotes :=
      [{ voteEventId := 20, officialId := 10, vote := "yea" },
       { voteEventId := 20, officialId := 11, vote := "nay" }] }

/-- Store where user 5's single active official is recorded `"absent"`. -/
def exDBAbsent : DB :=
  { exDBNoOfficials with
    officials := [exOfficialHouse],
    userOfficials := [{ userId := 5, officialId := 10, active := true }],
    officialVotes := [{ voteEventId := 20, officialId := 10, vote := "absent" }] }

/-- The yea/nay store with a failing persistence session. -/
def exDBCommitFail : DB :=
  { exDBYeaNay with commitFails := true }

/-- A normalized `measure_data` fixture (null `introduced_at`). -/
def exMeasureData : MeasureData :=
  { source := "congress", externalId := "119-hr-1", title := "A bill",
    level := "federal", status := "passed", introducedAt := none,
    topicTags := [], canonicalKey := "us:congress:119:hr:1" }

/-- Store holding the tracked measure and the officials, ready for
roll-call ingestion. -/
def exRollDB : DB :=
  { DB.empty with
    measures := [exMeasure],
    officials := [exOfficialHouse, exOfficialSenate, exSenatorNoLis],
    nextId := 50 }

/-- A House roll-call document for `H.R. 1` with one recorded vote. -/
def exHouseDoc : HouseVoteDoc :=
  { legisNum := some "H.R. 1", actionDate := some 7,
    voteResult := some "Passed",
    recordedVotes := [{ legislatorId := some "A0001", voteText := some "Yea" }] }

/-- A House roll-call document whose citation matches no tracked
measure (a Senate-confirmation style reference). -/
def exHouseDocUnmatched : HouseVoteDoc :=
  { legisNum := some "H.R. 999", actionDate := none,
    voteResult := some "Passed",
    recordedVotes := [{ legislatorId := some "A0001", voteText := some "Yea" }] }

/-- A Senate roll-call document for `H.R. 1` whose single member entry
carries a LIS id that is not on file, exercising the fallback. -/
def exSenateDoc : SenateVoteDoc :=
  { documentName := some "H.R. 1", voteDate := some 9,
    voteResult := some "Agreed to",
    members :=
      [{ lisMemberId := some "S354", lastName := some "Sen",
         state := some "az", voteCast := some "Yea" }] }

/-- A Senate document whose citation (`PN 12`, a nomination) matches no
citation pattern. -/
def exSenateDocUnmatched : SenateVoteDoc :=
  { documentName := some "PN 12", voteDate := none,
    voteResult := some "Confirmed",
    members :=
      [{ lisMemberId := some "S100", lastName := some "Sen",
         state := some "az", voteCast := some "Yea" }] }

/-- A Senate member record whose LIS id is unknown but whose
`(last name, state)` matches `exSenatorNoLis`. -/
def exSenateMember : SenateMember :=
  { lisMemberId := some "S354", lastName := some "Sen ",
    state := some "az", voteCast := some "Yea" }

/-- Witness for the C5 hypothesis: on the concrete fixture with a null
`introduced_at`, the merge keeps the stored value. -/
theorem C5_witness :
    (mergeMeasure exMeasure exMeasureData).introducedAt =
      exMeasure.introducedAt :=
  (C5_upsert_idempotent DB.empty exMeasureData "hr" "1" 119 "u").2.2.2.1
    rfl exMeasure

/-! ## Claims C1 and C2: per-measure match computation -/

theorem voteCompareLoop_matches_le (u : String) (rv : List OfficialVote)
    (os : List Official) :
    (voteCompareLoop u rv os).1 ≤ (voteCompareLoop u rv os).2.1 := by
  induction os with
  | nil => simp [voteCompareLoop]
  | cons o os ih =>
      simp only [voteCompareLoop]
      cases h : officialVoteMapGet rv o.id with
      | none => simpa using ih
      | some v =>
          by_cases hv : (v == "" || v == "unknown") = true
          · simpa [hv] using ih
          · simp only [Bool.not_eq_true] at hv
            simp only [hv, Bool.false_eq_true, if_false]
            split_ifs <;> omega

/-- Claim C1, amended: with no active officials the per-measure match
computation yields the fixed score-`0.0` result (not null, not an
error); and whenever the comparable total is zero — in particular on a
measure with no comparable official votes — the score is `0.0` for every
user who voted, with notes `"Matched 0 of 0 officials"` when the user
does have active officials. -/
theorem C1_amended (db : DB) (uv : UserVote) (ves : List VoteEvent) :
    (activeOfficials db uv.userId = [] →
      computeUserMatch db uv ves =
        { score := 0, breakdown := [],
          notes := "No officials found for user" })
    ∧ (comparableTotal db uv ves = 0 →
        (computeUserMatch db uv ves).score = 0)
    ∧ (activeOfficials db uv.userId ≠ [] → comparableTotal db uv ves = 0 →
        (computeUserMatch db uv ves).notes = "Matched 0 of 0 officials") := by
  refine ⟨?_, ?_, ?_⟩
  · intro h
    simp [computeUserMatch, h]
  · intro h
    by_cases ho : (activeOfficials db uv.userId).isEmpty
    · simp [computeUserMatch, ho]
    · have ht : (voteCompareLoop (strLower uv.vote)
          (relevantOfficialVotes db ves) (activeOfficials db uv.userId)).2.1
          = 0 := h
      have hr0 : roundTo3 0 = 0 := by decide
      simp [computeUserMatch, ho, ht, hr0]
  · intro hne h
    have ho : (activeOfficials db uv.userId).isEmpty = false := by
      cases hl : activeOfficials db uv.userId with
      | nil => exact absurd hl hne
      | cons a l => simp
    have ht : (voteCompareLoop (strLower uv.vote)
        (relevantOfficialVotes db ves) (activeOfficials db uv.userId)).2.1
        = 0 := h
    have hm := voteCompareLoop_matches_le (strLower uv.vote)
      (relevantOfficialVotes db ves) (activeOfficials db uv.userId)
    rw [ht] at hm
    have hm0 : (voteCompareLoop (strLower uv.vote)
        (relevantOfficialVotes db ves) (activeOfficials db uv.userId)).1
        = 0 := Nat.le_zero.mp hm
    simp only [computeUserMatch, ho, Bool.false_eq_true, if_false, ht, hm0]
    decide

/-- Claim C1 counterexample to the claim as stated: on a user with no active
officials the computation yields the concrete score `0.0` (a plain
number, not a null), and on a measure with no comparable official votes
it likewise yields score `0.0`. -/
theorem C1_counterexample :
    computeUserMatch exDBNoOfficials exUserVote [exVoteEvent] =
      { score := 0, breakdown := [], notes := "No officials found for user" }
    ∧ (computeUserMatch exDBNoComparable exUserVote [exVoteEvent]).score = 0
    ∧ (computeUserMatch exDBNoComparable exUserVote [exVoteEvent]).notes =
      "Matched 0 of 0 officials" := by
  decide

/-- Witness for C1: the amended theorem applied at the concrete stores. -/
theorem C1_witness :
    computeUserMatch exDBNoOfficials exUserVote [exVoteEvent] =
      { score := 0, breakdown := [], notes := "No officials found for user" }
    ∧ (computeUserMatch exDBNoComparable exUserVote [exVoteEvent]).score
      = 0 :=
  ⟨(C1_amended exDBNoOfficials exUserVote [exVoteEvent]).1 (by decide),
   (C1_amended exDBNoComparable exUserVote [exVoteEvent]).2.1 (by decide)⟩

/-- Claim C2, amended: a user voting `"yes"` against recorded official votes
`"yea"` and `"nay"` scores `0.5` over a comparable total of `2`; but an
official vote recorded as `"absent"` is counted in the denominator as a
non-match (breakdown entry without the non-comparable note) — only a
missing, empty, or `"unknown"` recorded vote is excluded as
non-comparable. -/
theorem C2_amended :
    (computeUserMatch exDBYeaNay exUserVote [exVoteEvent]).score = 1 / 2
    ∧ comparableTotal exDBYeaNay exUserVote [exVoteEvent] = 2
    ∧ ∀ (u : String) (rv : List OfficialVote) (o : Official)
        (os : List Official),
        officialVoteMapGet rv o.id = some "absent" →
        voteCompareLoop u rv (o :: os) =
          ((voteCompareLoop u rv os).1, (voteCompareLoop u rv os).2.1 + 1,
           { officialId := o.id, name := o.name, office := o.office,
             officialVote := "absent", matchesUser := false,
             note := none } :: (voteCompareLoop u rv os).2.2) := by
  refine ⟨by decide, by decide, ?_⟩
  intro u rv o os h
  have h1 : (("absent" : String) == "") = false := by decide
  have h2 : (("absent" : String) == "unknown") = false := by decide
  have h3 : strLower "absent" = "absent" := by decide
  have h4 : (strLower "absent" == "yea") = false := by decide
  have h5 : (strLower "absent" == "nay") = false := by decide
  simp [voteCompareLoop, h, h1, h2, h3, h4, h5]

/-- Claim C2 counterexample to the claim as stated: with a single active
official recorded `"absent"`, the comparable total is `1` (the absent
vote sits in the denominator as a counted mismatch), not `0` as the
claimed exclusion would give. -/
theorem C2_counterexample :
    comparableTotal exDBAbsent exUserVote [exVoteEvent] = 1
    ∧ computeUserMatch exDBAbsent exUserVote [exVoteEvent] =
      { score := 0,
        breakdown :=
          [{ officialId := 10, name := "Alice Rep",
             office := "U.S. Representative", officialVote := "absent",
             matchesUser := false, note := none }],
        notes := "Matched 0 of 1 officials" } := by
  decide

/-- Witness for C2: the absent-vote clause of the amended theorem applied
at a concrete official and vote list. -/
theorem C2_witness :
    voteCompareLoop "yes" exDBAbsent.officialVotes [exOfficialHouse] =
      (0, 1,
       [{ officialId := 10, name := "Alice Rep",
          office := "U.S. Representative", officialVote := "absent",
          matchesUser := false, note := none }]) := by
  have h := C2_amended.2.2 "yes" exDBAbsent.officialVotes exOfficialHouse []
    (by decide)
  rw [h]
  decide

/-! ## Claim C3: bill-citation parsing -/

/-- Claim C3: citation parsing under the declared pattern order.  `H.R.` and
`S.` forms parse to the intended pair, and an unrecognized prefix yields
`none` rather than an error; but the `S\.?\s*(\d+)` pattern, tried
second and searched anywhere in the string, captures the `S` inside
`RES` of every resolution citation, so all six `*res` forms parse to
bill type `"s"` — the resolution patterns of the table are unreachable,
contradicting the intended prefix table (whose own comment lists
`"H.J.Res. 12"` as a parsed format). -/
theorem C3_citation_parsing :
    parseBillCitation "H.R. 1228" = some ("hr", "1228")
    ∧ parseBillCitation "H R 1228" = some ("hr", "1228")
    ∧ parseBillCitation "S. 5" = some ("s", "5")
    ∧ parseBillCitation "S.J.Res. 12" = some ("s", "12")
    ∧ parseBillCitation "H.J.Res. 12" = some ("s", "12")
    ∧ parseBillCitation "H Con Res 7" = some ("s", "7")
    ∧ parseBillCitation "S.Con.Res. 3" = some ("s", "3")
    ∧ parseBillCitation "H.Res. 99" = some ("s", "99")
    ∧ parseBillCitation "S.Res. 14" = some ("s", "14")
    ∧ parseBillCitation "AMENDMENT 4" = none
    ∧ parseBillCitation "PN 12" = none := by
  decide

/-! ## Claim C4: adapter status mapping -/

/-- Claim C4 counterexample to the claim as stated: the federal adapter has no
`"vetoed"` rule at all, so an action text containing `"vetoed"` (and no
other keyword) maps to `"unknown"`, not `"failed"`; and `"continued"`
matches no rule in either adapter, so it does not map to `"tabled"`. -/
theorem C4_counterexample :
    federalMapStatus "Vetoed by the President." = "unknown"
    ∧ federalMapStatus "vetoed" = "unknown"
    ∧ federalMapStatus "Continued to next session" = "unknown"
    ∧ arizonaMapStatus "Continued to next session" = "unknown" := by
  decide

/-- Claim C4, amended: each adapter maps its lowercased action text through
its own fixed keyword-priority chain, first matching rule wins, always
landing in the closed status vocabulary.  Federal: "became public
law"/"signed by president" → passed before generic "passed"/"agreed to";
"failed"/"rejected" → failed (no vetoed rule); "referred
to"/"committee" → in_committee; then introduced/scheduled/tabled/
withdrawn rules; default unknown.  Arizona: "passed"/"signed" → passed;
"failed"/"vetoed" → failed; "committee" → in_committee (before the
"tabled"/"held" rule); default unknown.  Only the arizona adapter maps
"vetoed"; "continued" is mapped by neither. -/
theorem C4_amended :
    (∀ s : String, federalMapStatus s ∈ measureStatusValues
      ∧ arizonaMapStatus s ∈ measureStatusValues)
    ∧ federalMapStatus "Became Public Law No: 119-76." = "passed"
    ∧ federalMapStatus "Signed by President." = "passed"
    ∧ federalMapStatus "Passed Senate without amendment" = "passed"
    ∧ federalMapStatus "Agreed to in House" = "passed"
    ∧ federalMapStatus "Failed of passage" = "failed"
    ∧ federalMapStatus "Rejected in Senate" = "failed"
    ∧ federalMapStatus "Referred to the Committee on Rules" = "in_committee"
    ∧ federalMapStatus "Vetoed by the President." = "unknown"
    ∧ arizonaMapStatus "Vetoed by Governor" = "failed"
    ∧ arizonaMapStatus "Transmitted to Governor, signed" = "passed"
    ∧ arizonaMapStatus "Held in committee" = "in_committee"
    ∧ arizonaMapStatus "Further consideration held" = "tabled"
    ∧ arizonaMapStatus "Retained on the calendar" = "scheduled"
    ∧ federalMapStatus "Laid on the table; motion tabled" = "tabled"
    ∧ federalMapStatus "" = "unknown"
    ∧ arizonaMapStatus "" = "unknown" := by
  refine ⟨?_, by decide⟩
  intro s
  constructor
  · unfold federalMapStatus
    dsimp only
    split_ifs <;> simp [measureStatusValues]
  · unfold arizonaMapStatus
    dsimp only
    split_ifs <;> simp [measureStatusValues]

/-! ## Claim C9: alignment engine error handling -/

/-- Claim C9 counterexample to the claim as stated: with a failing persistence
session the body surfaces a commit failure, yet
`compute_matches_for_measure` returns the rolled-back store and `0` —
the `try/except Exception` wrapper swallows the persistence failure
instead of propagating it. -/
theorem C9_counterexample :
    computeMatchesBody exDBCommitFail 1 =
      Except.error PersistFailure.commitFailed
    ∧ computeMatchesForMeasure exDBCommitFail 1 = (exDBCommitFail, 0) := by
  decide

/-- Claim C9, amended: every "no data to score" condition — missing measure,
no vote events, no user votes — returns a defined `(db, 0)` without
raising; and a persistence failure raised inside the body is likewise
caught, rolled back and converted to `(db, 0)` rather than propagated to
the caller. -/
theorem C9_amended (db : DB) (mid : Nat) :
    (db.measures.find? (fun m => m.id == mid) = none →
      computeMatchesForMeasure db mid = (db, 0))
    ∧ (db.voteEvents.filter (fun ve => ve.measureId == mid) = [] →
      computeMatchesForMeasure db mid = (db, 0))
    ∧ (db.userVotes.filter (fun uv => uv.measureId == mid) = [] →
      computeMatchesForMeasure db mid = (db, 0))
    ∧ (∀ e : PersistFailure, computeMatchesBody db mid = Except.error e →
      computeMatchesForMeasure db mid = (db, 0)) := by
  refine ⟨?_, ?_, ?_, ?_⟩
  · intro h
    simp [computeMatchesForMeasure, computeMatchesBody, h]
  · intro h
    cases hf : db.measures.find? (fun m => m.id == mid) with
    | none => simp [computeMatchesForMeasure, computeMatchesBody, hf]
    | some m => simp [computeMatchesForMeasure, computeMatchesBody, hf, h]
  · intro h
    cases hf : db.measures.find? (fun m => m.id == mid) with
    | none => simp [computeMatchesForMeasure, computeMatchesBody, hf]
    | some m =>
        simp only [computeMatchesForMeasure, computeMatchesBody, hf, h]
        split_ifs <;> simp
  · intro e h
    simp [computeMatchesForMeasure, h]

/-- Witness for C9: the swallow clause applied at the failing-session
store, and the missing-measure clause at the empty store. -/
theorem C9_witness :
    computeMatchesForMeasure exDBCommitFail 1 = (exDBCommitFail, 0)
    ∧ computeMatchesForMeasure DB.empty 3 = (DB.empty, 0) :=
  ⟨(C9_amended exDBCommitFail 1).2.2.2 PersistFailure.commitFailed
    (by decide),
   (C9_amended DB.empty 3).1 (by decide)⟩

/-! ## Claims C6-C8: roll-call ingestion -/

/-- The number of stored vote events carrying a given idempotency key. -/
def voteEventKeyCount (db : DB) (k : String) : Nat :=
  (db.voteEvents.filter (fun ve => ve.externalId == k)).length

theorem processHouseRecordedVote_voteEvents (db : DB) (veId : Nat)
    (bm : List (String × Nat)) (rv : HouseRecordedVote) :
    (processHouseRecordedVote db veId bm rv).voteEvents = db.voteEvents := by
  cases h : rv.legislatorId with
  | none => simp [processHouseRecordedVote, h]
  | some bid =>
      cases h2 : dictGet bm bid <;>
        simp [processHouseRecordedVote, h, h2]

theorem processSenateMember_voteEvents (db : DB) (veId : Nat)
    (lm : List (String × Nat)) (nsm : List ((String × String) × Nat))
    (mem : SenateMember) :
    (processSenateMember db veId lm nsm mem).voteEvents = db.voteEvents := by
  cases h : dictGet lm (senateMemberLisId mem) with
  | some oid => simp [processSenateMember, h]
  | none =>
      cases hl : mem.lastName with
      | none => simp [processSenateMember, h, hl]
      | some lastNameT =>
          cases hs : mem.state with
          | none => simp [processSenateMember, h, hl, hs]
          | some stateT =>
              cases hk : dictGetPair nsm
                  (strLower (pyStrip lastNameT), strUpper (pyStrip stateT)) with
              | none => simp [processSenateMember, h, hl, hs, hk]
              | some oid =>
                  by_cases hb : (senateMemberLisId mem != "" &&
                      senateLisMissing db oid) = true <;>
                    simp [processSenateMember, h, hl, hs, hk, hb, backfillLis]

theorem foldl_voteEvents_eq {β : Type} (step : DB → β → DB)
    (h : ∀ d b, (step d b).voteEvents = d.voteEvents) (l : List β)
    (db : DB) : (l.foldl step db).voteEvents = db.voteEvents := by
  induction l generalizing db with
  | nil => rfl
  | cons x xs ih =>
      simp only [List.foldl_cons]
      rw [ih, h]

theorem matchBillToMeasure_mem {db : DB} {ref : String} {c mid : Nat}
    (h : matchBillToMeasure db ref c = some mid) :
    ∃ m, m ∈ db.measures ∧ m.id = mid := by
  unfold matchBillToMeasure at h
  cases hp : parseBillCitation ref with
  | none => rw [hp] at h; exact absurd h (by simp)
  | some pr =>
      rw [hp] at h
      obtain ⟨m, hm, hid⟩ := Option.map_eq_some'.mp h
      exact ⟨m, List.mem_of_find?_eq_some hm, hid⟩

theorem houseMeasureLookup_mem {db : DB} {doc : HouseVoteDoc} {c mid : Nat}
    (h : houseMeasureLookup db doc c = some mid) :
    ∃ m, m ∈ db.measures ∧ m.id = mid := by
  cases hl : doc.legisNum with
  | none => simp [houseMeasureLookup, hl] at h
  | some t =>
      simp only [houseMeasureLookup, hl] at h
      by_cases ht : (t != "") = true
      · rw [if_pos ht] at h
        exact matchBillToMeasure_mem h
      · rw [if_neg ht] at h
        exact absurd h (by simp)

theorem senateMeasureLookup_mem {db : DB} {doc : SenateVoteDoc} {c mid : Nat}
    (h : senateMeasureLookup db doc c = some mid) :
    ∃ m, m ∈ db.measures ∧ m.id = mid := by
  cases hl : doc.documentName with
  | none => simp [senateMeasureLookup, hl] at h
  | some t =>
      simp only [senateMeasureLookup, hl] at h
      by_cases ht : (t != "") = true
      · rw [if_pos ht] at h
        exact matchBillToMeasure_mem h
      · rw [if_neg ht] at h
        exact absurd h (by simp)

theorem processHouseVoteXml_of_keyExists (db : DB) (doc : HouseVoteDoc)
    (c s n : Nat) (bm : List (String × Nat))
    (h : db.voteEvents.any
      (fun ve => ve.externalId == houseExternalId c s n) = true) :
    processHouseVoteXml db doc c s n bm = db := by
  simp [processHouseVoteXml, h]

theorem processHouseVoteXml_of_noMeasure (db : DB) (doc : HouseVoteDoc)
    (c s n : Nat) (bm : List (String × Nat))
    (h : houseMeasureLookup db doc c = none) :
    processHouseVoteXml db doc c s n bm = db := by
  by_cases hany : db.voteEvents.any
      (fun ve => ve.externalId == houseExternalId c s n) = true
  · exact processHouseVoteXml_of_keyExists db doc c s n bm hany
  · simp [processHouseVoteXml, hany, h]

theorem processSenateVoteXml_of_keyExists (db : DB) (doc : SenateVoteDoc)
    (c s n : Nat) (lm : List (String × Nat))
    (nsm : List ((String × String) × Nat))
    (h : db.voteEvents.any
      (fun ve => ve.externalId == senateExternalId c s n) = true) :
    processSenateVoteXml db doc c s n lm nsm = db := by
  simp [processSenateVoteXml, h]

theorem processSenateVoteXml_of_noMeasure (db : DB) (doc : SenateVoteDoc)
    (c s n : Nat) (lm : List (String × Nat))
    (nsm : List ((String × String) × Nat))
    (h : senateMeasureLookup db doc c = none) :
    processSenateVoteXml db doc c s n lm nsm = db := by
  by_cases hany : db.voteEvents.any
      (fun ve => ve.externalId == senateExternalId c s n) = true
  · exact processSenateVoteXml_of_keyExists db doc c s n lm nsm hany
  · simp [processSenateVoteXml, hany, h]

theorem processHouseVoteXml_voteEvents_of_insert (db : DB)
    (doc : HouseVoteDoc) (c s n : Nat) (bm : List (String × Nat))
    (hany : db.voteEvents.any
      (fun ve => ve.externalId == houseExternalId c s n) = false)
    {mid : Nat} (hm : houseMeasureLookup db doc c = some mid) :
    (processHouseVoteXml db doc c s n bm).voteEvents =
      db.voteEvents ++
        [{ id := db.nextId, measureId := mid, body := "U.S. House",
           externalId := houseExternalId c s n, heldAt := doc.actionDate,
           result := houseResultText doc.voteResult }] := by
  have hstep : ∀ (d : DB) (rv : HouseRecordedVote),
      (processHouseRecordedVote d db.nextId bm rv).voteEvents =
        d.voteEvents :=
    fun d rv => processHouseRecordedVote_voteEvents d db.nextId bm rv
  simp only [processHouseVoteXml, hany, Bool.false_eq_true, if_false, hm]
  rw [foldl_voteEvents_eq _ hstep]

theorem processSenateVoteXml_voteEvents_of_insert (db : DB)
    (doc : SenateVoteDoc) (c s n : Nat) (lm : List (String × Nat))
    (nsm : List ((String × String) × Nat))
    (hany : db.voteEvents.any
      (fun ve => ve.externalId == senateExternalId c s n) = false)
    {mid : Nat} (hm : senateMeasureLookup db doc c = some mid) :
    (processSenateVoteXml db doc c s n lm nsm).voteEvents =
      db.voteEvents ++
        [{ id := db.nextId, measureId := mid, body := "U.S. Senate",
           externalId := senateExternalId c s n, heldAt := doc.voteDate,
           result := senateResultText doc.voteResult }] := by
  have hstep : ∀ (d : DB) (mem : SenateMember),
      (processSenateMember d db.nextId lm nsm mem).voteEvents =
        d.voteEvents :=
    fun d mem => processSenateMember_voteEvents d db.nextId lm nsm mem
  simp only [processSenateVoteXml, hany, Bool.false_eq_true, if_false, hm]
  rw [foldl_voteEvents_eq _ hstep]

/-- Claim C6: roll-call ingestion is idempotent per document: re-processing
the same document is a strict no-op for both chambers (when the
idempotency key already exists the document is skipped entirely, with no
error channel — the function is total), and from a store without the
key, one ingestion stores at most one `VoteEvent` under the key; the
no-op second run duplicates no `OfficialVote` rows. -/
theorem C6_rollcall_idempotent (db : DB) (hdoc : HouseVoteDoc)
    (sdoc : SenateVoteDoc) (c s n : Nat) (bmap lmap : List (String × Nat))
    (nsmap : List ((String × String) × Nat)) :
    processHouseVoteXml (processHouseVoteXml db hdoc c s n bmap) hdoc c s n
        bmap = processHouseVoteXml db hdoc c s n bmap
    ∧ processSenateVoteXml (processSenateVoteXml db sdoc c s n lmap nsmap)
        sdoc c s n lmap nsmap = processSenateVoteXml db sdoc c s n lmap nsmap
    ∧ (voteEventKeyCount db (houseExternalId c s n) = 0 →
        voteEventKeyCount (processHouseVoteXml db hdoc c s n bmap)
          (houseExternalId c s n) ≤ 1)
    ∧ (voteEventKeyCount db (senateExternalId c s n) = 0 →
        voteEventKeyCount (processSenateVoteXml db sdoc c s n lmap nsmap)
          (senateExternalId c s n) ≤ 1) := by
  refine ⟨?_, ?_, ?_, ?_⟩
  · by_cases hany : db.voteEvents.any
        (fun ve => ve.externalId == houseExternalId c s n) = true
    · rw [processHouseVoteXml_of_keyExists db hdoc c s n bmap hany]
      exact processHouseVoteXml_of_keyExists db hdoc c s n bmap hany
    · have hany' : db.voteEvents.any
          (fun ve => ve.externalId == houseExternalId c s n) = false :=
        Bool.not_eq_true _ ▸ Bool.of_not_eq_true hany
      cases hm : houseMeasureLookup db hdoc c with
      | none =>
          rw [processHouseVoteXml_of_noMeasure db hdoc c s n bmap hm]
          exact processHouseVoteXml_of_noMeasure db hdoc c s n bmap hm
      | some mid =>
          have hve := processHouseVoteXml_voteEvents_of_insert db hdoc c s n
            bmap hany' hm
          apply processHouseVoteXml_of_keyExists
          rw [hve]
          simp
  · by_cases hany : db.voteEvents.any
        (fun ve => ve.externalId == senateExternalId c s n) = true
    · rw [processSenateVoteXml_of_keyExists db sdoc c s n lmap nsmap hany]
      exact processSenateVoteXml_of_keyExists db sdoc c s n lmap nsmap hany
    · have hany' : db.voteEvents.any
          (fun ve => ve.externalId == senateExternalId c s n) = false :=
        Bool.not_eq_true _ ▸ Bool.of_not_eq_true hany
      cases hm : senateMeasureLookup db sdoc c with
      | none =>
          rw [processSenateVoteXml_of_noMeasure db sdoc c s n lmap nsmap hm]
          exact processSenateVoteXml_of_noMeasure db sdoc c s n lmap nsmap hm
      | some mid =>
          have hve := processSenateVoteXml_voteEvents_of_insert db sdoc c s n
            lmap nsmap hany' hm
          apply processSenateVoteXml_of_keyExists
          rw [hve]
          simp
  · intro h0
    by_cases hany : db.voteEvents.any
        (fun ve => ve.externalId == houseExternalId c s n) = true
    · rw [processHouseVoteXml_of_keyExists db hdoc c s n bmap hany]
      omega
    · have hany' : db.voteEvents.any
          (fun ve => ve.externalId == houseExternalId c s n) = false :=
        Bool.not_eq_true _ ▸ Bool.of_not_eq_true hany
      cases hm : houseMeasureLookup db hdoc c with
      | none =>
          rw [processHouseVoteXml_of_noMeasure db hdoc c s n bmap hm]
          omega
      | some mid =>
          have hve := processHouseVoteXml_voteEvents_of_insert db hdoc c s n
            bmap hany' hm
          unfold voteEventKeyCount at h0 ⊢
          rw [hve, List.filter_append, List.length_append, h0]
          simp
  · intro h0
    by_cases hany : db.voteEvents.any
        (fun ve => ve.externalId == senateExternalId c s n) = true
    · rw [processSenateVoteXml_of_keyExists db sdoc c s n lmap nsmap hany]
      omega
    · have hany' : db.voteEvents.any
          (fun ve => ve.externalId == senateExternalId c s n) = false :=
        Bool.not_eq_true _ ▸ Bool.of_not_eq_true hany
      cases hm : senateMeasureLookup db sdoc c with
      | none =>
          rw [processSenateVoteXml_of_noMeasure db sdoc c s n lmap nsmap hm]
          omega
      | some mid =>
          have hve := processSenateVoteXml_voteEvents_of_insert db sdoc c s n
            lmap nsmap hany' hm
          unfold voteEventKeyCount at h0 ⊢
          rw [hve, List.filter_append, List.length_append, h0]
          simp

/-- Witness for C6: the at-most-one-event clauses applied at a store with
no prior events and concrete House/Senate documents. -/
theorem C6_witness :
    voteEventKeyCount
      (processHouseVoteXml exRollDB exHouseDoc 119 1 7
        (buildBioguideMap exRollDB)) (houseExternalId 119 1 7) ≤ 1
    ∧ voteEventKeyCount
      (processSenateVoteXml exRollDB exSenateDoc 119 1 3
        (buildSenateMaps exRollDB).1 (buildSenateMaps exRollDB).2)
      (senateExternalId 119 1 3) ≤ 1 :=
  ⟨(C6_rollcall_idempotent exRollDB exHouseDoc exSenateDoc 119 1 7
      (buildBioguideMap exRollDB) (buildSenateMaps exRollDB).1
      (buildSenateMaps exRollDB).2).2.2.1 (by decide),
   (C6_rollcall_idempotent exRollDB exHouseDoc exSenateDoc 119 1 3
      (buildBioguideMap exRollDB) (buildSenateMaps exRollDB).1
      (buildSenateMaps exRollDB).2).2.2.2 (by decide)⟩

/-- Claim C7: a roll-call document whose bill citation resolves to no tracked
measure is discarded without storing anything — the store is returned
unchanged for both chambers; consequently every `VoteEvent` present
after processing either pre-existed or references a measure that exists
in the store. -/
theorem C7_unmatched_discarded (db : DB) (hdoc : HouseVoteDoc)
    (sdoc : SenateVoteDoc) (c s n : Nat) (bmap lmap : List (String × Nat))
    (nsmap : List ((String × String) × Nat)) :
    (houseMeasureLookup db hdoc c = none →
      processHouseVoteXml db hdoc c s n bmap = db)
    ∧ (senateMeasureLookup db sdoc c = none →
      processSenateVoteXml db sdoc c s n lmap nsmap = db)
    ∧ (∀ ve, ve ∈ (processHouseVoteXml db hdoc c s n bmap).voteEvents →
        ve ∈ db.voteEvents ∨ ∃ m, m ∈ db.measures ∧ m.id = ve.measureId)
    ∧ (∀ ve,
        ve ∈ (processSenateVoteXml db sdoc c s n lmap nsmap).voteEvents →
        ve ∈ db.voteEvents ∨ ∃ m, m ∈ db.measures ∧ m.id = ve.measureId) := by
  refine ⟨?_, ?_, ?_, ?_⟩
  · exact processHouseVoteXml_of_noMeasure db hdoc c s n bmap
  · exact processSenateVoteXml_of_noMeasure db sdoc c s n lmap nsmap
  · intro ve hve
    by_cases hany : db.voteEvents.any
        (fun v => v.externalId == houseExternalId c s n) = true
    · rw [processHouseVoteXml_of_keyExists db hdoc c s n bmap hany] at hve
      exact Or.inl hve
    · have hany' : db.voteEvents.any
          (fun v => v.externalId == houseExternalId c s n) = false :=
        Bool.not_eq_true _ ▸ Bool.of_not_eq_true hany
      cases hm : houseMeasureLookup db hdoc c with
      | none =>
          rw [processHouseVoteXml_of_noMeasure db hdoc c s n bmap hm] at hve
          exact Or.inl hve
      | some mid =>
          rw [processHouseVoteXml_voteEvents_of_insert db hdoc c s n bmap
            hany' hm] at hve
          rcases List.mem_append.mp hve with hin | hin
          · exact Or.inl hin
          · obtain ⟨m, hmem, hid⟩ := houseMeasureLookup_mem hm
            have : ve.measureId = mid := by
              rcases List.mem_singleton.mp hin with rfl
              rfl
            exact Or.inr ⟨m, hmem, by rw [hid, this]⟩
  · intro ve hve
    by_cases hany : db.voteEvents.any
        (fun v => v.externalId == senateExternalId c s n) = true
    · rw [processSenateVoteXml_of_keyExists db sdoc c s n lmap nsmap hany]
        at hve
      exact Or.inl hve
    · have hany' : db.voteEvents.any
          (fun v => v.externalId == senateExternalId c s n) = false :=
        Bool.not_eq_true _ ▸ Bool.of_not_eq_true hany
      cases hm : senateMeasureLookup db sdoc c with
      | none =>
          rw [processSenateVoteXml_of_noMeasure db sdoc c s n lmap nsmap hm]
            at hve
          exact Or.inl hve
      | some mid =>
          rw [processSenateVoteXml_voteEvents_of_insert db sdoc c s n lmap
            nsmap hany' hm] at hve
          rcases List.mem_append.mp hve with hin | hin
          · exact Or.inl hin
          · obtain ⟨m, hmem, hid⟩ := senateMeasureLookup_mem hm
            have : ve.measureId = mid := by
              rcases List.mem_singleton.mp hin with rfl
              rfl
            exact Or.inr ⟨m, hmem, by rw [hid, this]⟩

/-- Witness for C7: the discard clauses applied at concrete documents
whose citations resolve to no tracked measure. -/
theorem C7_witness :
    processHouseVoteXml exRollDB exHouseDocUnmatched 119 1 7
      (buildBioguideMap exRollDB) = exRollDB
    ∧ processSenateVoteXml exRollDB exSenateDocUnmatched 119 1 3
      (buildSenateMaps exRollDB).1 (buildSenateMaps exRollDB).2 = exRollDB :=
  ⟨(C7_unmatched_discarded exRollDB exHouseDocUnmatched exSenateDocUnmatched
      119 1 7 (buildBioguideMap exRollDB) (buildSenateMaps exRollDB).1
      (buildSenateMaps exRollDB).2).1 (by decide),
   (C7_unmatched_discarded exRollDB exHouseDocUnmatched exSenateDocUnmatched
      119 1 3 (buildBioguideMap exRollDB) (buildSenateMaps exRollDB).1
      (buildSenateMaps exRollDB).2).2.1 (by decide)⟩

/-- Claim C8: in Senate ingestion, a member record whose `lis_member_id`
lookup misses but whose normalized `(last-name, state)` pair is in the
fallback map resolves to that official and an `OfficialVote` row is
written for it; and when the record carries a non-empty LIS id while the
matched official lacks one, the id is backfilled onto that official's
record. -/
theorem C8_senate_fallback (db : DB) (veId : Nat)
    (lisMap : List (String × Nat)) (nsMap : List ((String × String) × Nat))
    (mem : SenateMember) (oid : Nat) (lastNameT stateT : String)
    (h1 : dictGet lisMap (senateMemberLisId mem) = none)
    (h2 : mem.lastName = some lastNameT)
    (h3 : mem.state = some stateT)
    (h4 : dictGetPair nsMap
      (strLower (pyStrip lastNameT), strUpper (pyStrip stateT)) = some oid) :
    (processSenateMember db veId lisMap nsMap mem).officialVotes =
      db.officialVotes ++
        [{ voteEventId := veId, officialId := oid,
           vote := voteMapLookup (strLower (pyStrip (mem.voteCast.getD ""))) }]
    ∧ (senateMemberLisId mem ≠ "" → senateLisMissing db oid = true →
        (processSenateMember db veId lisMap nsMap mem).officials =
          db.officials.map
            (fun o =>
              if o.id == oid then
                { o with lisMemberId := some (senateMemberLisId mem) }
              else o)) := by
  constructor
  · by_cases hb : (senateMemberLisId mem != "" &&
        senateLisMissing db oid) = true <;>
      simp [processSenateMember, h1, h2, h3, h4, hb, backfillLis]
  · intro hne hmiss
    have hb : (senateMemberLisId mem != "" &&
        senateLisMissing db oid) = true := by
      simp [hne, hmiss]
    simp [processSenateMember, h1, h2, h3, h4, hb, backfillLis]

/-- Witness for C8: the fallback theorem applied at a concrete member
record whose LIS id is unknown; the vote row is written for the matched
senator and the LIS id is backfilled. -/
theorem C8_witness :
    (processSenateMember exRollDB 60 (buildSenateMaps exRollDB).1
        (buildSenateMaps exRollDB).2 exSenateMember).officialVotes =
      exRollDB.officialVotes ++
        [{ voteEventId := 60, officialId := 12, vote := "yea" }]
    ∧ (processSenateMember exRollDB 60 (buildSenateMaps exRollDB).1
        (buildSenateMaps exRollDB).2 exSenateMember).officials =
      exRollDB.officials.map
        (fun o =>
          if o.id == 12 then { o with lisMemberId := some "S354" }
          else o) := by
  have h := C8_senate_fallback exRollDB 60 (buildSenateMaps exRollDB).1
    (buildSenateMaps exRollDB).2 exSenateMember 12 "Sen " "az"
    (by decide) (by decide) (by decide) (by decide)
  constructor
  · rw [h.1]
    decide
  · rw [h.2 (by decide) (by decide)]
    decide

/-! ## Claim C10: dashboard cache invalidation -/

/-- Initial application state: the tracked measure, empty cache, user 5
has not voted. -/
def exAppState0 : AppState :=
  { db := { DB.empty with measures := [exMeasure], nextId := 30 },
    cache := [] }

/-- State after user 5's first dashboard read at `t = 0` (the response
is cached under the dashboard key with a 120 s TTL). -/
def exAppState1 : AppState :=
  (getDashboard exAppState0 0 5).2

/-- State after user 5 swipes "yes" on the measure at `t = 10`. -/
def exAppState2 : AppState :=
  swipe exAppState1 10 5 1 "yes"

/-- Claim C10 counterexample to the claim as stated: user 5 reads the
dashboard (cached, zero votes), swipes "yes" on the tracked measure, and
reads the dashboard again at `t = 50`, inside the 120 s TTL.  The second
read serves the pre-change cached aggregate (`total_votes = 0`) even
though recomputation over the current store gives `total_votes = 1`:
the swipe endpoint deleted only the representatives cache key, not the
dashboard key. -/
theorem C10_counterexample :
    (getDashboard exAppState2 50 5).1 = (getDashboard exAppState0 0 5).1
    ∧ (getDashboard exAppState0 0 5).1.stats.totalVotes = 0
    ∧ (computeDashboard exAppState2.db 5).stats.totalVotes = 1
    ∧ (getDashboard exAppState2 50 5).1 ≠ computeDashboard exAppState2.db 5
    := by
  decide

/-- Claim C10, amended: recording a swipe touches exactly one cache key — it
deletes `reps_key(user)` (or, on a 404, nothing) and preserves every
other cache entry, the dashboard entry included; and a dashboard read
that finds a live cached entry returns it unchanged, whatever the
current store contents.  Hence a dashboard read after a vote change
serves the pre-change cached aggregate until the entry's TTL expires. -/
theorem C10_amended (st : AppState) (now : Nat) (userId measureId : Nat)
    (vote : String) :
    ((swipe st now userId measureId vote).cache = st.cache
      ∨ (swipe st now userId measureId vote).cache =
          cacheDelete st.cache (repsKey userId))
    ∧ (∀ e ∈ st.cache, e.key ≠ repsKey userId →
        e ∈ (swipe st now userId measureId vote).cache)
    ∧ (∀ r : DashboardResponse,
        cacheGetEntry st.cache now (dashboardKey userId) =
          some (CacheValue.dashboardValue r) →
        getDashboard st now userId = (r, st)) := by
  refine ⟨?_, ?_, ?_⟩
  · cases hf : st.db.measures.find? (fun m => m.id == measureId) with
    | none => exact Or.inl (by simp [swipe, hf])
    | some m =>
        refine Or.inr ?_
        by_cases hv : st.db.userVotes.any
            (fun uv => uv.userId == userId && uv.measureId == measureId) =
            true <;>
          simp [swipe, hf, hv]
  · intro e he hk
    have hkb : (e.key != repsKey userId) = true := by
      simpa using hk
    cases hf : st.db.measures.find? (fun m => m.id == measureId) with
    | none => simpa [swipe, hf] using he
    | some m =>
        have hmem : e ∈ cacheDelete st.cache (repsKey userId) :=
          List.mem_filter.mpr ⟨he, hkb⟩
        by_cases hv : st.db.userVotes.any
            (fun uv => uv.userId == userId && uv.measureId == measureId) =
            true <;>
          simpa [swipe, hf, hv, cacheDelete] using hmem
  · intro r hr
    simp [getDashboard, hr]

/-- Witness for C10: the cached-read clause applied at the post-swipe
state inside the TTL window: the read returns the pre-change cached
response. -/
theorem C10_witness :
    getDashboard exAppState2 50 5 =
      ((getDashboard exAppState0 0 5).1, exAppState2) :=
  (C10_amended exAppState2 50 5 1 "yes").2.2
    (getDashboard exAppState0 0 5).1 (by decide)

end CivicSwipe
